import Mathlib

/-!
Shallow embedding of the solar-suitability dashboard (`app.py`).

The program is a single sequential pipeline: locate a shapefile, load it
into a table of region records, filter the records by the selected state
and district, build a colour legend by substring classification of the
suitability labels, compose a map (centre, zoom heuristic, per-feature
style), and print a detail panel for a selected district.

Python/pandas semantics are modelled as follows:

* a missing value (`None` or a float `NaN` attribute) is `Option.none`;
  a present string value is `Option.some s`.  The source guards values
  with `v is not None and str(v) != "nan"`, which is modelled by the
  `none` test plus an explicit `s = "nan"` text test on present values;
* `pat in s` (Python substring containment) is `hasSub s pat`;
* `Series.unique()` (first-seen de-duplication) is `uniq`;
* `sorted` on strings is `List.mergeSort` with the lexicographic order;
* geometry operations that the underlying geospatial library may fail on
  (centroid, bounds of a degenerate geometry) are `Option`-valued fields
  of a record: `none` models the library call raising;
* an uncaught exception escaping the map-composition block is modelled
  by `Except.error`.
-/

/-- `leadsWith pat l` is true iff `pat` is an initial segment of `l`. -/
def leadsWith : List Char → List Char → Bool
  | [], _ => true
  | _ :: _, [] => false
  | a :: as, b :: bs => a == b && leadsWith as bs

/-- Helper for substring containment: does `pat` occur in the list? -/
def hasSubAux (pat : List Char) : List Char → Bool
  | [] => pat.isEmpty
  | c :: rest => leadsWith pat (c :: rest) || hasSubAux pat rest

/-- Python's `pat in s` substring test. -/
def hasSub (s pat : String) : Bool :=
  hasSubAux pat.data s.data

/-- Python's `s.endswith(pat)`. -/
def tailEnds (s pat : String) : Bool :=
  leadsWith pat.data.reverse s.data.reverse

/-- Legend colour classification (`app.py` lines 153-159): green for
labels containing "Highly Suitable", yellow for labels containing
"Moderately Suitable", gray otherwise. -/
def legendColor (value : String) : String :=
  if hasSub value "Highly Suitable" then "#4dff4d"
  else if hasSub value "Moderately Suitable" then "#ffeb3b"
  else "#808080"

/-- The legend rows produced for a list of distinct label values:
each value is paired with its classified colour. -/
def legendEntries (values : List String) : List (String × String) :=
  values.map (fun v => (v, legendColor v))

/-- The style dictionary returned by the per-feature `style_function`. -/
structure StyleProps where
  fillColor : String
  color : String
  weight : ℕ
  fillOpacity : ℚ
deriving DecidableEq

/-- Per-feature `style_function` (`app.py` lines 194-206).  `present`
models `selected_category in feature['properties']`; the value is the
feature's category value (`none` for Python `None`). -/
def style_function (present : Bool) (v : Option String) : StyleProps :=
  match present, v with
  | true, some s =>
    if hasSub s "Highly Suitable" then ⟨"#4dff4d", "black", 1, 7/10⟩
    else if hasSub s "Moderately Suitable" then ⟨"#ffeb3b", "black", 1, 7/10⟩
    else ⟨"#808080", "black", 1, 7/10⟩
  | _, _ => ⟨"#808080", "black", 1, 7/10⟩

/-- Bounding box of one geometry, `(minx, miny, maxx, maxy)`. -/
structure BBox where
  minx : ℚ
  miny : ℚ
  maxx : ℚ
  maxy : ℚ
deriving DecidableEq

/-- One row of the loaded table: administrative names, the four
suitability attributes, and the geometry.  The geometry is modelled by
the two derived quantities the program uses: its centroid `(x, y)` and
its bounding box; `none` models the geometry computation raising on a
degenerate geometry. -/
structure Record where
  NAME_1 : Option String
  NAME_2 : Option String
  Adaptation : Option String
  Mitigation : Option String
  Replacment : Option String
  General_SI : Option String
  centroid : Option (ℚ × ℚ)
  bbox : Option BBox
deriving DecidableEq

/-- The loaded collection: the rows plus which attribute columns the
table actually has (`"NAME_1" in gdf.columns` etc.). -/
structure Collection where
  rows : List Record
  hasNAME1 : Bool
  hasNAME2 : Bool
  hasAdaptation : Bool
  hasMitigation : Bool
  hasReplacment : Bool
  hasGeneral_SI : Bool

/-- State filtering (`app.py` lines 116-119): keep rows whose `NAME_1`
equals the selected state, unless "All States" is selected. -/
def stateFiltered (gdf : List Record) (S : String) : List Record :=
  if S ≠ "All States" then gdf.filter (fun r => r.NAME_1 == some S) else gdf

/-- The full region filter (`app.py` lines 116-119 and 134-135): state
filter first, then the district filter on the state-filtered subset,
unless "All Districts" is selected. -/
def filterRegion (gdf : List Record) (S D : String) : List Record :=
  let filtered := stateFiltered gdf S
  if D ≠ "All Districts" then filtered.filter (fun r => r.NAME_2 == some D) else filtered

/-- First-seen de-duplication with an accumulator of already-seen
elements; models pandas `Series.unique()`. -/
def uniqAux [DecidableEq α] (seen : List α) : List α → List α
  | [] => []
  | x :: xs => if x ∈ seen then uniqAux seen xs else x :: uniqAux (x :: seen) xs

/-- First-seen de-duplication, as pandas `Series.unique()`. -/
def uniq [DecidableEq α] (l : List α) : List α :=
  uniqAux [] l

/-- The list comprehension `[str(v) for v in col.unique() if v is not
None and str(v) != "nan"]`: de-duplicate, then keep present values whose
text is not "nan". -/
def validNames (vs : List (Option String)) : List String :=
  (uniq vs).filterMap (fun o =>
    match o with
    | some s => if s = "nan" then none else some s
    | none => none)

/-- Python `sorted` on strings (lexicographic). -/
def sortStr (l : List String) : List String :=
  l.mergeSort (fun a b => a ≤ b)

/-- The state selector options (`app.py` lines 108-111): "All States"
followed, when the `NAME_1` column exists, by the sorted valid state
names of the full collection. -/
def statesList (col : Collection) : List String :=
  "All States" ::
    (if col.hasNAME1 then sortStr (validNames (col.rows.map (fun r => r.NAME_1))) else [])

/-- The district selector options (`app.py` lines 123-129): "All
Districts" followed, when the `NAME_2` column exists, by the sorted
valid district names of the state-filtered subset (the full collection
when "All States" is selected). -/
def districtOptions (col : Collection) (S : String) : List String :=
  "All Districts" ::
    (if col.hasNAME2 then
      sortStr (validNames ((stateFiltered col.rows S).map (fun r => r.NAME_2)))
    else [])

/-- The fixed fallback map centre ("center of India", `app.py` line
179), as `(lat, lon) = (20.5937, 78.9629)`. -/
def defaultCenter : ℚ × ℚ :=
  (205937/10000, 789629/10000)

/-- Collect every row's centroid; `none` as soon as any centroid
computation fails (the pandas expression raises). -/
def centroids? : List Record → Option (List (ℚ × ℚ))
  | [] => some []
  | r :: rs =>
    match r.centroid, centroids? rs with
    | some c, some cs => some (c :: cs)
    | _, _ => none

/-- Mean of a list of rationals, `sum / length`. -/
def meanQ (l : List ℚ) : ℚ :=
  l.sum / l.length

/-- The map centre (`app.py` lines 173-179): the `try` block computes
`[centroid.y.mean(), centroid.x.mean()]`; on failure the `except` falls
back to the default centre. -/
def centerOf (rows : List Record) : ℚ × ℚ :=
  match centroids? rows with
  | some cs => (meanQ (cs.map (fun c => c.2)), meanQ (cs.map (fun c => c.1)))
  | none => defaultCenter

/-- Collect every row's bounding box; `none` as soon as any bounds
computation fails. -/
def bboxes? : List Record → Option (List BBox)
  | [] => some []
  | r :: rs =>
    match r.bbox, bboxes? rs with
    | some b, some bs => some (b :: bs)
    | _, _ => none

/-- Union of two bounding boxes. -/
def bboxUnion (a b : BBox) : BBox :=
  ⟨min a.minx b.minx, min a.miny b.miny, max a.maxx b.maxx, max a.maxy b.maxy⟩

/-- `total_bounds` of a subset (`app.py` line 182): the union of the
per-geometry bounding boxes; `none` when any geometry's bounds
computation fails (the library call raises) or the subset is empty. -/
def totalBounds (rows : List Record) : Option BBox :=
  match bboxes? rows with
  | some (b :: bs) => some (bs.foldl bboxUnion b)
  | _ => none

/-- The zoom heuristic (`app.py` lines 183-189) from the bounding-box
spans: default 7, widened to 6 when either span exceeds 3 degrees,
narrowed to 9 when either span is below 1 degree. -/
def zoom_level (latDiff lonDiff : ℚ) : ℕ :=
  if latDiff > 3 ∨ lonDiff > 3 then 6
  else if latDiff < 1 ∨ lonDiff < 1 then 9
  else 7

/-- What the map column renders. -/
inductive MapOutput where
  | noData
  | mapView (center : ℚ × ℚ) (zoom : ℕ)
deriving DecidableEq

/-- The map-composition block (`app.py` lines 171-234): an empty subset
short-circuits to the "no data" warning; otherwise the centre is
computed (with its local fallback) and then the bounds and zoom.  The
bounds computation has no local handler, so its failure is an exception
escaping the block, modelled by `Except.error`. -/
def composeMap (rows : List Record) : Except String MapOutput :=
  if rows.isEmpty then Except.ok MapOutput.noData
  else
    let center := centerOf rows
    match totalBounds rows with
    | none => Except.error "total_bounds failed"
    | some b => Except.ok (MapOutput.mapView center (zoom_level (b.maxy - b.miny) (b.maxx - b.minx)))

/-- One line of the detail panel for one category: emitted only when
the column is present and the value is present with text other than
"nan" (`app.py` lines 228-232). -/
def catLine (display : String) (present : Bool) (v : Option String) : List (String × String) :=
  if present then
    match v with
    | some s => if s ≠ "nan" then [(display, s)] else []
    | none => []
  else []

/-- The detail-panel lines for one record, in the fixed dictionary
order of the four categories, each under its display name (the
misspelled `Replacment` column is displayed as "Replacement"). -/
def categoryLines (col : Collection) (r : Record) : List (String × String) :=
  catLine "Adaptation" col.hasAdaptation r.Adaptation ++
  catLine "Mitigation" col.hasMitigation r.Mitigation ++
  catLine "Replacement" col.hasReplacment r.Replacment ++
  catLine "General SI" col.hasGeneral_SI r.General_SI

/-- The detail panel (`app.py` lines 223-232): rendered only inside the
non-empty branch and only for a specific district selection; it reads
the first record of the filtered subset. -/
def detailPanel (col : Collection) (S D : String) : Option (List (String × String)) :=
  match filterRegion col.rows S D with
  | [] => none
  | r :: _ => if D ≠ "All Districts" then some (categoryLines col r) else none

/-- The parts of the file system `find_shapefile` consults: the names
in the working directory (in `os.listdir` order), the parent directory
path, and the names in the parent directory. -/
structure FileSys where
  cwdFiles : List String
  parentDir : String
  parentFiles : List String

/-- `find_shapefile` (`app.py` lines 63-80): exact name in the working
directory, else exact name in the parent directory, else the first
`.shp` file listed in the working directory, else the original name. -/
def find_shapefile (fs : FileSys) (base : String) : String :=
  if (base ++ ".shp") ∈ fs.cwdFiles then base ++ ".shp"
  else if (base ++ ".shp") ∈ fs.parentFiles then fs.parentDir ++ "/" ++ (base ++ ".shp")
  else
    match fs.cwdFiles.find? (fun f => tailEnds f ".shp") with
    | some f => f
    | none => base ++ ".shp"

/-! ### Helper lemmas -/

theorem mem_uniqAux [DecidableEq α] (seen l : List α) (a : α) :
    a ∈ uniqAux seen l ↔ a ∈ l ∧ a ∉ seen := by
  induction l generalizing seen with
  | nil => simp [uniqAux]
  | cons x xs ih =>
    by_cases hx : x ∈ seen
    · simp only [uniqAux, if_pos hx, ih, List.mem_cons]
      constructor
      · exact fun ⟨h1, h2⟩ => ⟨Or.inr h1, h2⟩
      · rintro ⟨h1 | h1, h2⟩
        · exact absurd (h1 ▸ hx) h2
        · exact ⟨h1, h2⟩
    · simp only [uniqAux, if_neg hx, List.mem_cons, ih]
      by_cases hax : a = x
      · subst hax; simp [hx]
      · simp [hax]

theorem nodup_uniqAux [DecidableEq α] (seen l : List α) :
    (uniqAux seen l).Nodup := by
  induction l generalizing seen with
  | nil => simp [uniqAux]
  | cons x xs ih =>
    by_cases hx : x ∈ seen
    · simpa [uniqAux, if_pos hx] using ih seen
    · simp only [uniqAux, if_neg hx]
      refine List.nodup_cons.mpr ⟨?_, ih (x :: seen)⟩
      intro hmem
      exact ((mem_uniqAux _ _ _).mp hmem).2 (List.mem_cons_self x seen)

theorem mem_uniq [DecidableEq α] (l : List α) (a : α) :
    a ∈ uniq l ↔ a ∈ l := by
  simp [uniq, mem_uniqAux]

theorem nodup_uniq [DecidableEq α] (l : List α) : (uniq l).Nodup :=
  nodup_uniqAux [] l

theorem mem_validNames (vs : List (Option String)) (x : String) :
    x ∈ validNames vs ↔ some x ∈ vs ∧ x ≠ "nan" := by
  simp only [validNames, List.mem_filterMap, mem_uniq]
  constructor
  · rintro ⟨o, ho, hfo⟩
    match o with
    | none => simp at hfo
    | some s =>
      by_cases hs : s = "nan"
      · simp [hs] at hfo
      · simp only [if_neg hs, Option.some.injEq] at hfo
        exact ⟨hfo ▸ ho, hfo ▸ hs⟩
  · rintro ⟨hmem, hx⟩
    exact ⟨some x, hmem, by simp [if_neg hx]⟩

theorem nodup_validNames (vs : List (Option String)) : (validNames vs).Nodup := by
  refine List.Nodup.filterMap ?_ (nodup_uniq vs)
  intro o o' b hb hb'
  have ho : o = some b := by
    match o with
    | none => simp at hb
    | some s =>
      by_cases hs : s = "nan"
      · simp [hs] at hb
      · simp only [if_neg hs, Option.mem_def, Option.some.injEq] at hb
        exact congrArg some hb
  have ho' : o' = some b := by
    match o' with
    | none => simp at hb'
    | some s =>
      by_cases hs : s = "nan"
      · simp [hs] at hb'
      · simp only [if_neg hs, Option.mem_def, Option.some.injEq] at hb'
        exact congrArg some hb'
  rw [ho, ho']

theorem mem_sortStr (l : List String) (x : String) :
    x ∈ sortStr l ↔ x ∈ l :=
  (List.mergeSort_perm l _).mem_iff

theorem nodup_sortStr (l : List String) (h : l.Nodup) : (sortStr l).Nodup :=
  (List.mergeSort_perm l _).nodup_iff.mpr h

theorem sorted_sortStr (l : List String) : List.Sorted (· ≤ ·) (sortStr l) :=
  List.sorted_mergeSort' l

theorem mem_stateFiltered (gdf : List Record) (S : String) (r : Record) :
    r ∈ stateFiltered gdf S ↔ r ∈ gdf ∧ (S = "All States" ∨ r.NAME_1 = some S) := by
  by_cases hS : S = "All States"
  · simp [stateFiltered, hS]
  · simp [stateFiltered, hS, List.mem_filter]

theorem centroids?_eq_some (rows : List Record) (cs : List (ℚ × ℚ))
    (h : rows.map (fun r => r.centroid) = cs.map some) :
    centroids? rows = some cs := by
  induction rows generalizing cs with
  | nil =>
    cases cs with
    | nil => rfl
    | cons c cs' => simp at h
  | cons r rs ih =>
    cases cs with
    | nil => simp at h
    | cons c cs' =>
      simp only [List.map_cons, List.cons.injEq] at h
      rw [centroids?, h.1, ih cs' h.2]

theorem centroids?_eq_none (rows : List Record) (r : Record)
    (hr : r ∈ rows) (hc : r.centroid = none) :
    centroids? rows = none := by
  induction rows with
  | nil => simp at hr
  | cons x xs ih =>
    rcases List.mem_cons.mp hr with h | h
    · rw [centroids?, ← h, hc]
    · rw [centroids?, ih h]
      cases x.centroid <;> rfl

theorem bboxes?_eq_none (rows : List Record) (r : Record)
    (hr : r ∈ rows) (hb : r.bbox = none) :
    bboxes? rows = none := by
  induction rows with
  | nil => simp at hr
  | cons x xs ih =>
    rcases List.mem_cons.mp hr with h | h
    · rw [bboxes?, ← h, hb]
    · rw [bboxes?, ih h]
      cases x.bbox <;> rfl

theorem totalBounds_eq_none (rows : List Record) (r : Record)
    (hr : r ∈ rows) (hb : r.bbox = none) :
    totalBounds rows = none := by
  rw [totalBounds, bboxes?_eq_none rows r hr hb]

theorem mem_catLine (d : String) (p : Bool) (ov : Option String) (n v : String) :
    (n, v) ∈ catLine d p ov ↔ (p = true ∧ ov = some v ∧ v ≠ "nan" ∧ n = d) := by
  cases p with
  | false => simp [catLine]
  | true =>
    cases ov with
    | none => simp [catLine]
    | some s =>
      by_cases hs : s = "nan"
      · subst hs
        simp [catLine]
        rintro rfl h
        exact absurd rfl h
      · simp [catLine, hs]
        constructor
        · rintro ⟨rfl, rfl⟩
          exact ⟨rfl, hs, rfl⟩
        · rintro ⟨rfl, -, rfl⟩
          exact ⟨rfl, rfl⟩

/-! ### Demonstration inputs -/

/-- A demonstration record used as a concrete input. -/
def demoRecA : Record :=
  ⟨some "Kerala", some "Kollam", none, none, none, none, some (0, 0), some ⟨0, 0, 0, 0⟩⟩

/-! ### Claims -/

/-- C1: the colour assigned to a category label is a pure function of
the label text alone: a label containing "Highly Suitable" gets the
affirmative colour `#4dff4d`; otherwise a label containing "Moderately
Suitable" gets the caution colour `#ffeb3b`; any other label, and a
missing value in the style function, gets the neutral colour `#808080`.
Identical label text always yields an identical colour in the legend,
independent of the position of the entry. -/
theorem color_classification_pure :
    (∀ s : String, hasSub s "Highly Suitable" = true → legendColor s = "#4dff4d") ∧
    (∀ s : String, hasSub s "Highly Suitable" = false →
      hasSub s "Moderately Suitable" = true → legendColor s = "#ffeb3b") ∧
    (∀ s : String, hasSub s "Highly Suitable" = false →
      hasSub s "Moderately Suitable" = false → legendColor s = "#808080") ∧
    (∀ p : Bool, (style_function p none).fillColor = "#808080") ∧
    (∀ (vs : List String) (v c₁ c₂ : String),
      (v, c₁) ∈ legendEntries vs → (v, c₂) ∈ legendEntries vs → c₁ = c₂) := by
  refine ⟨?_, ?_, ?_, ?_, ?_⟩
  · intro s h
    simp [legendColor, h]
  · intro s h1 h2
    simp [legendColor, h1, h2]
  · intro s h1 h2
    simp [legendColor, h1, h2]
  · intro p
    cases p <;> rfl
  · intro vs v c₁ c₂ h1 h2
    simp only [legendEntries, List.mem_map, Prod.mk.injEq] at h1 h2
    obtain ⟨a, -, rfl, rfl⟩ := h1
    obtain ⟨b, -, rfl, rfl⟩ := h2
    rfl

/-- Witness for C1, instantiated at the label "Highly Suitable (3)". -/
theorem color_classification_pure_witness :
    hasSub "Highly Suitable (3)" "Highly Suitable" = true ∧
    legendColor "Highly Suitable (3)" = "#4dff4d" :=
  ⟨by decide, color_classification_pure.1 "Highly Suitable (3)" (by decide)⟩

/-- C2: the region filter returns exactly the records that pass the
state predicate (skipped for "All States", otherwise exact equality of
`NAME_1`) and then the district predicate (skipped for "All Districts",
otherwise exact equality of `NAME_2`), the district predicate being
applied to the already state-filtered subset. -/
theorem filter_region_spec (gdf : List Record) (S D : String) :
    (∀ r : Record, r ∈ filterRegion gdf S D ↔
      (r ∈ gdf ∧ (S ≠ "All States" → r.NAME_1 = some S) ∧
        (D ≠ "All Districts" → r.NAME_2 = some D))) ∧
    filterRegion gdf S "All Districts" = stateFiltered gdf S ∧
    (D ≠ "All Districts" →
      filterRegion gdf S D = (stateFiltered gdf S).filter (fun r => r.NAME_2 == some D)) := by
  refine ⟨?_, ?_, ?_⟩
  · intro r
    by_cases hD : D = "All Districts" <;> by_cases hS : S = "All States"
    all_goals simp [filterRegion, stateFiltered, hD, hS, List.mem_filter]
    all_goals tauto
  · simp [filterRegion]
  · intro h
    simp [filterRegion, h]

/-- Witness for C2: a one-record collection filtered by its own state
and district. -/
theorem filter_region_spec_witness :
    ("Kollam" ≠ "All Districts") ∧
    filterRegion [demoRecA] "Kerala" "Kollam" =
      (stateFiltered [demoRecA] "Kerala").filter (fun r => r.NAME_2 == some "Kollam") :=
  ⟨by decide, (filter_region_spec [demoRecA] "Kerala" "Kollam").2.2 (by decide)⟩

/-- C10: the two independent implementations of the colour rule agree:
for every label string, the legend colour equals the fill colour the
per-feature style function assigns to a feature carrying that label. -/
theorem legend_style_fill_agree (s : String) :
    legendColor s = (style_function true (some s)).fillColor := by
  by_cases h1 : hasSub s "Highly Suitable" = true <;>
    by_cases h2 : hasSub s "Moderately Suitable" = true <;>
      simp [legendColor, style_function, h1, h2]

/-- A record whose district name is the literal text "nan": the option
builder drops it even though the value is present. -/
def nanRec : Record :=
  ⟨some "Kerala", some "nan", none, none, none, none, some (0, 0), some ⟨0, 0, 0, 0⟩⟩

/-- A one-record collection containing `nanRec`, with all columns. -/
def nanCol : Collection :=
  ⟨[nanRec], true, true, true, true, true, true⟩

/-- C3 counterexample: the claim says the offered district list is
"All Districts" followed by the sorted de-duplicated non-null district
names, but a present district whose text is the literal "nan" is
dropped by the source's `str(d) != "nan"` guard, so it never appears in
the offered list. -/
theorem district_options_nan_cex :
    nanRec ∈ nanCol.rows ∧ nanRec.NAME_2 = some "nan" ∧
    districtOptions nanCol "All States" = ["All Districts"] := by
  refine ⟨by simp [nanCol], rfl, ?_⟩
  have h : validNames ((stateFiltered [nanRec] "All States").map (fun r => r.NAME_2)) = [] := by
    decide
  simp [districtOptions, nanCol, h, sortStr, List.mergeSort_nil]

/-- C3 (amended): for every collection with a `NAME_2` column and every
selected state, the offered district list is "All Districts" followed
by a sorted, duplicate-free list containing exactly the district names
that are present, have text other than "nan", and belong to a record
matching the selected state ("All States" matching every record). -/
theorem district_options_spec (col : Collection) (S : String) (h2 : col.hasNAME2 = true) :
    (districtOptions col S).head? = some "All Districts" ∧
    List.Sorted (· ≤ ·) (districtOptions col S).tail ∧
    (districtOptions col S).tail.Nodup ∧
    (∀ x : String, x ∈ (districtOptions col S).tail ↔
      (x ≠ "nan" ∧ ∃ r ∈ col.rows, r.NAME_2 = some x ∧
        (S = "All States" ∨ r.NAME_1 = some S))) := by
  have htail : (districtOptions col S).tail =
      sortStr (validNames ((stateFiltered col.rows S).map (fun r => r.NAME_2))) := by
    simp [districtOptions, h2]
  refine ⟨rfl, ?_, ?_, ?_⟩
  · rw [htail]
    exact sorted_sortStr _
  · rw [htail]
    exact nodup_sortStr _ (nodup_validNames _)
  · intro x
    rw [htail, mem_sortStr, mem_validNames]
    simp only [List.mem_map]
    constructor
    · rintro ⟨⟨r, hr, hrx⟩, hnan⟩
      have hm := (mem_stateFiltered col.rows S r).mp hr
      exact ⟨hnan, r, hm.1, hrx, hm.2⟩
    · rintro ⟨hnan, r, hr, hrx, hor⟩
      exact ⟨⟨r, (mem_stateFiltered col.rows S r).mpr ⟨hr, hor⟩, hrx⟩, hnan⟩

/-- Witness for C3, instantiated at a concrete collection. -/
theorem district_options_spec_witness :
    nanCol.hasNAME2 = true ∧
    (districtOptions nanCol "All States").head? = some "All Districts" :=
  ⟨rfl, (district_options_spec nanCol "All States" rfl).1⟩

/-- C4: for a non-empty subset whose bounds computation succeeds, the
rendered zoom is computed from the bounding-box spans: 6 when either
span exceeds 3 degrees, else 9 when either span is below 1 degree, else
the default 7; in particular a subset spanning 3.5 degrees of latitude
gets zoom 6, one spanning 0.5 degrees gets zoom 9, and one spanning 2
degrees gets zoom 7. -/
theorem zoom_heuristic_spec :
    (∀ (rows : List Record) (b : BBox), rows ≠ [] → totalBounds rows = some b →
      composeMap rows = Except.ok (MapOutput.mapView (centerOf rows)
        (zoom_level (b.maxy - b.miny) (b.maxx - b.minx)))) ∧
    (∀ la lo : ℚ, la > 3 ∨ lo > 3 → zoom_level la lo = 6) ∧
    (∀ la lo : ℚ, ¬(la > 3 ∨ lo > 3) → la < 1 ∨ lo < 1 → zoom_level la lo = 9) ∧
    (∀ la lo : ℚ, ¬(la > 3 ∨ lo > 3) → ¬(la < 1 ∨ lo < 1) → zoom_level la lo = 7) ∧
    (∀ lo : ℚ, zoom_level (7/2) lo = 6) ∧
    zoom_level (1/2) (1/2) = 9 ∧
    zoom_level 2 2 = 7 := by
  have e9 : zoom_level (1/2) (1/2) = 9 := by
    norm_num [zoom_level]
  have e7 : zoom_level 2 2 = 7 := by
    norm_num [zoom_level]
  refine ⟨?_, ?_, ?_, ?_, ?_, e9, e7⟩
  · intro rows b hne hb
    have hE : rows.isEmpty = false := by
      cases rows with
      | nil => exact absurd rfl hne
      | cons _ _ => rfl
    simp [composeMap, hE, hb]
  · intro la lo h
    simp [zoom_level, h]
  · intro la lo h1 h2
    simp [zoom_level, h1, h2]
  · intro la lo h1 h2
    simp [zoom_level, h1, h2]
  · intro lo
    have h3 : (7 : ℚ)/2 > 3 := by norm_num
    simp only [zoom_level]
    rw [if_pos (Or.inl h3)]

/-- Witness for C4, instantiated at spans 4 and 0. -/
theorem zoom_heuristic_spec_witness :
    ((4 : ℚ) > 3 ∨ (0 : ℚ) > 3) ∧ zoom_level 4 0 = 6 :=
  ⟨Or.inl (by norm_num), zoom_heuristic_spec.2.1 4 0 (Or.inl (by norm_num))⟩

/-- C5: when the filtered subset is empty the composition block raises
no error and performs no centre, bounds or zoom computation: it reports
the "no data" notice. -/
theorem empty_subset_no_data (gdf : List Record) (S D : String)
    (h : filterRegion gdf S D = []) :
    composeMap (filterRegion gdf S D) = Except.ok MapOutput.noData := by
  rw [h]
  rfl

/-- Witness for C5: a selection with zero matches. -/
theorem empty_subset_no_data_witness :
    filterRegion [demoRecA] "Goa" "All Districts" = [] ∧
    composeMap (filterRegion [demoRecA] "Goa" "All Districts") = Except.ok MapOutput.noData :=
  ⟨by decide, empty_subset_no_data [demoRecA] "Goa" "All Districts" (by decide)⟩

/-- A record whose geometry's bounds computation fails. -/
def degenerateRec : Record :=
  ⟨some "X", some "Y", none, none, none, none, some (0, 0), none⟩

/-- C6 counterexample: a bounds-computation failure on a non-empty
subset is not caught inside the map-composition block: the error
escapes it (reaching the top-level handler) instead of falling back to
the default centre, refuting "never propagates out of the Map
Composer". -/
theorem bounds_failure_cex :
    degenerateRec.bbox = none ∧
    composeMap [degenerateRec] = Except.error "total_bounds failed" :=
  ⟨rfl, rfl⟩

/-- C6 (amended): for a subset whose per-geometry centroids all
succeed, the centre is the mean of the centroid coordinates; a centroid
failure is caught locally, falling back to the fixed default centre;
but a bounds failure is not caught in the Map Composer and propagates
out as an error. -/
theorem center_fallback_spec :
    (∀ (rows : List Record) (cs : List (ℚ × ℚ)),
      rows.map (fun r => r.centroid) = cs.map some →
      centerOf rows = (meanQ (cs.map (fun c => c.2)), meanQ (cs.map (fun c => c.1)))) ∧
    (∀ (rows : List Record) (r : Record), r ∈ rows → r.centroid = none →
      centerOf rows = defaultCenter) ∧
    (∀ (rows : List Record) (r : Record), r ∈ rows → r.bbox = none →
      composeMap rows = Except.error "total_bounds failed") := by
  refine ⟨?_, ?_, ?_⟩
  · intro rows cs h
    rw [centerOf, centroids?_eq_some rows cs h]
  · intro rows r hr hc
    rw [centerOf, centroids?_eq_none rows r hr hc]
  · intro rows r hr hb
    have hne : rows ≠ [] := by
      rintro rfl
      simp at hr
    have hE : rows.isEmpty = false := by
      cases rows with
      | nil => exact absurd rfl hne
      | cons _ _ => rfl
    simp [composeMap, hE, totalBounds_eq_none rows r hr hb]

/-- A record whose centroid computation fails. -/
def badCentroidRec : Record :=
  ⟨some "X", some "Y", none, none, none, none, none, some ⟨0, 0, 0, 0⟩⟩

/-- Witness for C6: a centroid failure falls back to the default
centre. -/
theorem center_fallback_spec_witness :
    (badCentroidRec ∈ [badCentroidRec] ∧ badCentroidRec.centroid = none) ∧
    centerOf [badCentroidRec] = defaultCenter :=
  ⟨⟨List.mem_singleton.mpr rfl, rfl⟩,
    center_fallback_spec.2.1 [badCentroidRec] badCentroidRec (List.mem_singleton.mpr rfl) rfl⟩

/-- C7: the dataset locator is total and searches in order: exact name
in the working directory, exact name in the parent directory, first
`.shp` file listed in the working directory, and finally the original
base name with extension even when no such file exists. -/
theorem find_shapefile_spec (fs : FileSys) (base : String) :
    ((base ++ ".shp") ∈ fs.cwdFiles → find_shapefile fs base = base ++ ".shp") ∧
    ((base ++ ".shp") ∉ fs.cwdFiles → (base ++ ".shp") ∈ fs.parentFiles →
      find_shapefile fs base = fs.parentDir ++ "/" ++ (base ++ ".shp")) ∧
    ((base ++ ".shp") ∉ fs.cwdFiles → (base ++ ".shp") ∉ fs.parentFiles →
      ∀ f, fs.cwdFiles.find? (fun g => tailEnds g ".shp") = some f →
        find_shapefile fs base = f) ∧
    ((base ++ ".shp") ∉ fs.cwdFiles → (base ++ ".shp") ∉ fs.parentFiles →
      fs.cwdFiles.find? (fun g => tailEnds g ".shp") = none →
      find_shapefile fs base = base ++ ".shp") := by
  refine ⟨?_, ?_, ?_, ?_⟩
  · intro h
    simp [find_shapefile, h]
  · intro h1 h2
    simp [find_shapefile, h1, h2]
  · intro h1 h2 f hf
    simp [find_shapefile, h1, h2, hf]
  · intro h1 h2 hf
    simp [find_shapefile, h1, h2, hf]

/-- A demonstration file system whose working directory holds exactly
the expected shapefile. -/
def demoFS : FileSys :=
  ⟨["Solar_Suitability_layer.shp"], "/home", []⟩

/-- Witness for C7: the exact name is found in the working
directory. -/
theorem find_shapefile_spec_witness :
    ("Solar_Suitability_layer" ++ ".shp") ∈ demoFS.cwdFiles ∧
    find_shapefile demoFS "Solar_Suitability_layer" = "Solar_Suitability_layer" ++ ".shp" :=
  ⟨by decide, (find_shapefile_spec demoFS "Solar_Suitability_layer").1 (by decide)⟩

/-- C8: a collection lacking the `NAME_1` (resp. `NAME_2`) column
degrades the state (resp. district) selector to the single "All"
option rather than the run failing. -/
theorem missing_columns_graceful (col : Collection) :
    (col.hasNAME1 = false → statesList col = ["All States"]) ∧
    (col.hasNAME2 = false → ∀ S : String, districtOptions col S = ["All Districts"]) := by
  constructor
  · intro h
    simp [statesList, h]
  · intro h S
    simp [districtOptions, h]

/-- A collection with no attribute columns at all. -/
def bareCol : Collection :=
  ⟨[], false, false, false, false, false, false⟩

/-- Witness for C8: both selectors degrade on a column-less
collection. -/
theorem missing_columns_graceful_witness :
    bareCol.hasNAME1 = false ∧ statesList bareCol = ["All States"] :=
  ⟨rfl, (missing_columns_graceful bareCol).1 rfl⟩

/-- A record whose `Adaptation` value is the literal text "nan". -/
def nanValRec : Record :=
  ⟨some "Maharashtra", some "Pune", some "nan", none, none, none, some (0, 0), some ⟨0, 0, 0, 0⟩⟩

/-- A one-record collection containing `nanValRec`, with all columns. -/
def nanValCol : Collection :=
  ⟨[nanValRec], true, true, true, true, true, true⟩

/-- C9 counterexample: the claim says every present, non-null category
value of the first matching record is emitted, but a present value
whose text is the literal "nan" is omitted by the source's
`str(value) != "nan"` guard. -/
theorem detail_panel_nan_cex :
    nanValRec.Adaptation = some "nan" ∧
    detailPanel nanValCol "Maharashtra" "Pune" = some [] :=
  ⟨rfl, by decide⟩

/-- C9 (amended): for a specific district selection with a non-empty
filtered subset, the detail panel reads exactly the first matching
record and emits, for each of the four categories that is present as a
column and holds a present value with text other than "nan", that value
under its corrected display name (`Replacment` displayed as
"Replacement"), omitting every other category. -/
theorem detail_panel_spec (col : Collection) (S D : String) (r : Record) (rest : List Record)
    (hD : D ≠ "All Districts") (hf : filterRegion col.rows S D = r :: rest) :
    detailPanel col S D = some (categoryLines col r) ∧
    (∀ n v : String, (n, v) ∈ categoryLines col r ↔
      ((col.hasAdaptation = true ∧ r.Adaptation = some v ∧ v ≠ "nan" ∧ n = "Adaptation") ∨
       (col.hasMitigation = true ∧ r.Mitigation = some v ∧ v ≠ "nan" ∧ n = "Mitigation") ∨
       (col.hasReplacment = true ∧ r.Replacment = some v ∧ v ≠ "nan" ∧ n = "Replacement") ∨
       (col.hasGeneral_SI = true ∧ r.General_SI = some v ∧ v ≠ "nan" ∧ n = "General SI"))) := by
  constructor
  · simp [detailPanel, hf, hD]
  · intro n v
    simp only [categoryLines, List.mem_append, mem_catLine]
    tauto

/-- The single-record Maharashtra/Pune scenario from the claim. -/
def puneRec : Record :=
  ⟨some "Maharashtra", some "Pune", some "Highly Suitable (3)", none, none, none,
    some (0, 0), some ⟨0, 0, 0, 0⟩⟩

/-- A one-record collection containing `puneRec`, with all columns. -/
def puneCol : Collection :=
  ⟨[puneRec], true, true, true, true, true, true⟩

/-- Witness for C9: selecting state "Maharashtra" and district "Pune"
shows exactly `Adaptation: Highly Suitable (3)`. -/
theorem detail_panel_spec_witness :
    ("Pune" ≠ "All Districts" ∧ filterRegion puneCol.rows "Maharashtra" "Pune" = [puneRec]) ∧
    detailPanel puneCol "Maharashtra" "Pune" = some (categoryLines puneCol puneRec) ∧
    categoryLines puneCol puneRec = [("Adaptation", "Highly Suitable (3)")] :=
  ⟨⟨by decide, by decide⟩,
    (detail_panel_spec puneCol "Maharashtra" "Pune" puneRec [] (by decide) (by decide)).1,
    by decide⟩
